import Mathlib

/- Verification development for the prono API's error taxonomy and request
   pipeline: the ApplicationError hierarchy (domain/errors), the boundary
   error translator (middleware/logging.middleware.ts, errorLoggingMiddleware),
   the session-resolver middlewares (middleware/auth.middleware.ts), the
   SuperTokens user-lookup adapter (SuperTokensAuthService.getUserById) and
   the User domain entity (user.entity.ts). -/

namespace Prono

/-- Diagnostic context attached to an error at throw time
    (TS `Record<string, any>`, modelled as key-value pairs). -/
abbrev ErrorContext := List (String × String)

/-- JS object spread with one overriding key, as in `super(message, ...)`
    receiving an object literal that spreads the caller context and then adds
    one key: the added key overrides any same-named key of the original
    context, and a key whose value is undefined is dropped (as JSON
    serialization of the object would drop it). -/
def ctxWithKey (ctx : ErrorContext) (key : String) (v : Option String) : ErrorContext :=
  ctx.filter (fun p => p.1 != key) ++ (match v with | some s => [(key, s)] | none => [])

/-- JS `x || d` on an optionally supplied string argument: the default is used
    when the argument is undefined or an empty (falsy) string. -/
def jsOrElse (x : Option String) (d : String) : String :=
  match x with
  | some s => if s = "" then d else s
  | none => d

/-- The ApplicationError base contract (base.error.ts): `name` is the concrete
    class name (set from this.constructor.name), `statusCode` / `code` /
    `isOperational` are fixed per concrete class, `message` and `context`
    are supplied by the caller at throw time. The captured stack trace is a
    runtime artifact and is not modelled. -/
structure ApplicationError where
  name : String
  statusCode : Nat
  code : String
  isOperational : Bool
  message : String
  context : Option ErrorContext
deriving DecidableEq

/-- http.errors.ts: 400 Bad Request. A TS default parameter
    (`message: string = "Bad request"`) fires exactly when the argument is
    undefined, hence `Option.getD`. -/
def BadRequestError (message : Option String) (context : Option ErrorContext) : ApplicationError :=
  { name := "BadRequestError", statusCode := 400, code := "BAD_REQUEST",
    isOperational := true, message := message.getD "Bad request", context := context }

/-- http.errors.ts: 401 Unauthorized. -/
def UnauthorizedError (message : Option String) (context : Option ErrorContext) : ApplicationError :=
  { name := "UnauthorizedError", statusCode := 401, code := "UNAUTHORIZED",
    isOperational := true, message := message.getD "Authentication required", context := context }

/-- http.errors.ts: 403 Forbidden. -/
def ForbiddenError (message : Option String) (context : Option ErrorContext) : ApplicationError :=
  { name := "ForbiddenError", statusCode := 403, code := "FORBIDDEN",
    isOperational := true, message := message.getD "Access forbidden", context := context }

/-- http.errors.ts: 404 Not Found. -/
def NotFoundError (message : Option String) (context : Option ErrorContext) : ApplicationError :=
  { name := "NotFoundError", statusCode := 404, code := "NOT_FOUND",
    isOperational := true, message := message.getD "Resource not found", context := context }

/-- http.errors.ts: 409 Conflict. -/
def ConflictError (message : Option String) (context : Option ErrorContext) : ApplicationError :=
  { name := "ConflictError", statusCode := 409, code := "CONFLICT",
    isOperational := true, message := message.getD "Conflict", context := context }

/-- http.errors.ts: 422 Unprocessable Entity (the ValidationFailed kind of the
    taxonomy; its stable code string in the source is VALIDATION_ERROR). -/
def ValidationError (message : Option String) (context : Option ErrorContext) : ApplicationError :=
  { name := "ValidationError", statusCode := 422, code := "VALIDATION_ERROR",
    isOperational := true, message := message.getD "Validation failed", context := context }

/-- http.errors.ts: 500 Internal Server Error (extends ServerError, so
    isOperational is false). -/
def InternalServerError (message : Option String) (context : Option ErrorContext) : ApplicationError :=
  { name := "InternalServerError", statusCode := 500, code := "INTERNAL_SERVER_ERROR",
    isOperational := false, message := message.getD "Internal server error", context := context }

/-- http.errors.ts: 503 Service Unavailable (extends ServerError). -/
def ServiceUnavailableError (message : Option String) (context : Option ErrorContext) : ApplicationError :=
  { name := "ServiceUnavailableError", statusCode := 503, code := "SERVICE_UNAVAILABLE",
    isOperational := false, message := message.getD "Service temporarily unavailable",
    context := context }

/-- domain.errors.ts: AuthenticationFailedError extends UnauthorizedError. -/
def AuthenticationFailedError (message : Option String) (context : Option ErrorContext) : ApplicationError :=
  { name := "AuthenticationFailedError", statusCode := 401, code := "AUTHENTICATION_FAILED",
    isOperational := true, message := message.getD "Authentication failed", context := context }

/-- domain.errors.ts: InvalidSessionError extends UnauthorizedError. -/
def InvalidSessionError (message : Option String) (context : Option ErrorContext) : ApplicationError :=
  { name := "InvalidSessionError", statusCode := 401, code := "INVALID_SESSION",
    isOperational := true, message := message.getD "Session is invalid or expired",
    context := context }

/-- domain.errors.ts: SessionRefreshRequiredError extends UnauthorizedError. -/
def SessionRefreshRequiredError (message : Option String) (context : Option ErrorContext) : ApplicationError :=
  { name := "SessionRefreshRequiredError", statusCode := 401, code := "SESSION_REFRESH_REQUIRED",
    isOperational := true, message := message.getD "Session refresh required", context := context }

/-- domain.errors.ts: UserNotFoundError extends NotFoundError; its constructor
    is (userId?, message = "User not found", context?) and always forwards the
    object spread of context with the userId key. -/
def UserNotFoundError (userId : Option String) (message : Option String)
    (context : Option ErrorContext) : ApplicationError :=
  { name := "UserNotFoundError", statusCode := 404, code := "USER_NOT_FOUND",
    isOperational := true, message := message.getD "User not found",
    context := some (ctxWithKey (context.getD []) "userId" userId) }

/-- domain.errors.ts: UserAlreadyExistsError extends ConflictError. -/
def UserAlreadyExistsError (message : Option String) (context : Option ErrorContext) : ApplicationError :=
  { name := "UserAlreadyExistsError", statusCode := 409, code := "USER_ALREADY_EXISTS",
    isOperational := true, message := message.getD "User already exists", context := context }

/-- infra.errors.ts: DatabaseError extends InternalServerError. -/
def DatabaseError (message : Option String) (context : Option ErrorContext) : ApplicationError :=
  { name := "DatabaseError", statusCode := 500, code := "DATABASE_ERROR",
    isOperational := false, message := message.getD "Database operation failed",
    context := context }

/-- infra.errors.ts: ExternalServiceError extends ServiceUnavailableError; its
    constructor is (serviceName, message?, context?); the default message uses
    JS `||` and the context always carries the serviceName key. -/
def ExternalServiceError (serviceName : String) (message : Option String)
    (context : Option ErrorContext) : ApplicationError :=
  { name := "ExternalServiceError", statusCode := 503, code := "EXTERNAL_SERVICE_ERROR",
    isOperational := false,
    message := jsOrElse message
      ("External service \x27" ++ serviceName ++ "\x27 is unavailable"),
    context := some (ctxWithKey (context.getD []) "serviceName" (some serviceName)) }

/-- infra.errors.ts: SuperTokensError extends ExternalServiceError with the
    fixed service name "SuperTokens" and its own name and code. -/
def SuperTokensError (message : Option String) (context : Option ErrorContext) : ApplicationError :=
  { ExternalServiceError "SuperTokens" message context with
    name := "SuperTokensError", code := "SUPERTOKENS_ERROR" }

/-- Severity levels of the structured log sink. -/
inductive LogSeverity where
  | info
  | warn
  | error
deriving DecidableEq

/-- The structured record handed to the log sink by errorLoggingMiddleware.
    The log-site `type` field is called logType (type is a Lean keyword) and
    the stack-trace field is a runtime artifact, not modelled. -/
structure LogRecord where
  severity : LogSeverity
  logType : String
  errName : Option String
  errCode : Option String
  errMessage : Option String
  errStatusCode : Option Nat
  errContext : Option ErrorContext
  method : String
  url : String
deriving DecidableEq

/-- The `error` object of the JSON error envelope produced by c.json: a field
    whose value is undefined is absent from the serialized body, hence the
    Option-valued message and context. -/
structure ErrorResponseBody where
  code : String
  message : Option String
  context : Option ErrorContext
deriving DecidableEq

/-- An HTTP error response: status code plus JSON envelope body. -/
structure HttpResponse where
  status : Nat
  body : ErrorResponseBody
deriving DecidableEq

/-- A JS value reaching the boundary translator via `throw`: an
    ApplicationError instance, another Error instance (with name, message and
    stack string properties), a plain string primitive, or the null value. -/
inductive Thrown where
  | app (e : ApplicationError)
  | err (name message stack : String)
  | str (s : String)
  | jsNull
deriving DecidableEq

/-- JS property access `error.name`: undefined on a string primitive (strings
    have no own `name` property) and a TypeError on null. -/
def Thrown.nameProp : Thrown → Except String (Option String)
  | .app e => .ok (some e.name)
  | .err n _ _ => .ok (some n)
  | .str _ => .ok none
  | .jsNull => .error "TypeError: cannot read properties of null"

/-- JS property access `error.message`: undefined on a string primitive and a
    TypeError on null. -/
def Thrown.messageProp : Thrown → Except String (Option String)
  | .app e => .ok (some e.message)
  | .err _ m _ => .ok (some m)
  | .str _ => .ok none
  | .jsNull => .error "TypeError: cannot read properties of null"

/-- The log record emitted on the ApplicationError branch of
    errorLoggingMiddleware: severity warn when operational else error, all
    error metadata, and the request method and url. -/
def applicationErrorLog (e : ApplicationError) (method url : String) : LogRecord :=
  { severity := if e.isOperational then LogSeverity.warn else LogSeverity.error,
    logType := "application_error",
    errName := some e.name, errCode := some e.code, errMessage := some e.message,
    errStatusCode := some e.statusCode, errContext := e.context,
    method := method, url := url }

/-- The response built on the ApplicationError branch of
    errorLoggingMiddleware: status from the error, and a body whose context
    field is present exactly when the error carries a (truthy) context and
    NODE_ENV is not "production". -/
def applicationErrorResponse (e : ApplicationError) (production : Bool) : HttpResponse :=
  { status := e.statusCode,
    body := { code := e.code, message := some e.message,
              context := if e.context.isSome && !production then e.context else none } }

/-- errorLoggingMiddleware (logging.middleware.ts), the boundary error
    translator registered via app.onError. `production` stands for
    NODE_ENV === "production". The result is a JS computation: an `ok` pair of
    the emitted log record and the response, or an uncaught JS exception
    (there is no try/catch in the source, so a property-access failure
    propagates). On the non-ApplicationError branch the object literal passed
    to logger.error reads error.name and then error.message in order. -/
def errorLoggingMiddleware (error : Thrown) (production : Bool) (method url : String) :
    Except String (LogRecord × HttpResponse) :=
  match error with
  | .app e => .ok (applicationErrorLog e method url, applicationErrorResponse e production)
  | other =>
      match other.nameProp with
      | .error ex => .error ex
      | .ok n =>
          match other.messageProp with
          | .error ex => .error ex
          | .ok m =>
              .ok ({ severity := LogSeverity.error, logType := "unhandled_error",
                     errName := n, errCode := none, errMessage := m,
                     errStatusCode := none, errContext := none,
                     method := method, url := url },
                   { status := 500,
                     body := { code := "INTERNAL_SERVER_ERROR",
                               message := if production then some "Internal server error" else m,
                               context := none } })

/-- The fourteen concrete kinds of the taxonomy table. -/
inductive TableKind where
  | badRequest
  | unauthorized
  | invalidSession
  | sessionRefreshRequired
  | forbidden
  | notFound
  | userNotFound
  | conflict
  | userAlreadyExists
  | validationFailed
  | internalServerError
  | databaseError
  | serviceUnavailable
  | externalServiceError
deriving DecidableEq

/-- Raise a table kind with caller-supplied throw-time data: `extra` feeds the
    extra constructor argument of the two kinds that take one (the userId of
    UserNotFoundError, the serviceName of ExternalServiceError, defaulting to
    the auth provider's name as its sole in-repo call site does). -/
def raiseTableKind (k : TableKind) (extra message : Option String)
    (context : Option ErrorContext) : ApplicationError :=
  match k with
  | .badRequest => BadRequestError message context
  | .unauthorized => UnauthorizedError message context
  | .invalidSession => InvalidSessionError message context
  | .sessionRefreshRequired => SessionRefreshRequiredError message context
  | .forbidden => ForbiddenError message context
  | .notFound => NotFoundError message context
  | .userNotFound => UserNotFoundError extra message context
  | .conflict => ConflictError message context
  | .userAlreadyExists => UserAlreadyExistsError message context
  | .validationFailed => ValidationError message context
  | .internalServerError => InternalServerError message context
  | .databaseError => DatabaseError message context
  | .serviceUnavailable => ServiceUnavailableError message context
  | .externalServiceError => ExternalServiceError (extra.getD "SuperTokens") message context

/-- The HTTP status the taxonomy table fixes for each kind. -/
def tableStatus : TableKind → Nat
  | .badRequest => 400
  | .unauthorized => 401
  | .invalidSession => 401
  | .sessionRefreshRequired => 401
  | .forbidden => 403
  | .notFound => 404
  | .userNotFound => 404
  | .conflict => 409
  | .userAlreadyExists => 409
  | .validationFailed => 422
  | .internalServerError => 500
  | .databaseError => 500
  | .serviceUnavailable => 503
  | .externalServiceError => 503

/-- The stable code string each kind fixes at definition time. -/
def tableCode : TableKind → String
  | .badRequest => "BAD_REQUEST"
  | .unauthorized => "UNAUTHORIZED"
  | .invalidSession => "INVALID_SESSION"
  | .sessionRefreshRequired => "SESSION_REFRESH_REQUIRED"
  | .forbidden => "FORBIDDEN"
  | .notFound => "NOT_FOUND"
  | .userNotFound => "USER_NOT_FOUND"
  | .conflict => "CONFLICT"
  | .userAlreadyExists => "USER_ALREADY_EXISTS"
  | .validationFailed => "VALIDATION_ERROR"
  | .internalServerError => "INTERNAL_SERVER_ERROR"
  | .databaseError => "DATABASE_ERROR"
  | .serviceUnavailable => "SERVICE_UNAVAILABLE"
  | .externalServiceError => "EXTERNAL_SERVICE_ERROR"

/-- JS String.prototype.split with a single-character separator, modelled on
    character lists: foldr keeps the list of segments, starting a new empty
    segment at each separator; the result is never empty. -/
def splitChar (sep : Char) (cs : List Char) : List (List Char) :=
  cs.foldr
    (fun c acc =>
      if c = sep then [] :: acc
      else
        match acc with
        | [] => [[c]]
        | a :: rest => (c :: a) :: rest)
    [[]]

/-- JS `s.split(sep)[0]`: the first segment, i.e. the characters before the
    first occurrence of the separator (the whole string when absent). -/
def jsSplitHead (sep : Char) (s : String) : String :=
  String.mk ((splitChar sep s.data).headD [])

/-- JS truthiness of an optionally present string field: undefined and the
    empty string are falsy. -/
def jsTruthyStr : Option String → Bool
  | none => false
  | some s => s != ""

/-- The open provider-supplied metadata record of a User (user.entity.ts uses
    firstName, lastName and emailVerified; the SuperTokens adapter stores a
    loginMethods field, kept opaque here). -/
structure UserMetadata where
  firstName : Option String
  lastName : Option String
  emailVerified : Option Bool
  loginMethods : Option String
deriving DecidableEq

/-- The User domain entity (user.entity.ts): id, email, time joined and the
    optional metadata record. -/
structure User where
  id : String
  email : String
  timeJoined : Nat
  metadata : Option UserMetadata
deriving DecidableEq

/-- JS optional chaining `this.metadata?.firstName`. -/
def User.metaFirstName (u : User) : Option String :=
  u.metadata.bind UserMetadata.firstName

/-- JS optional chaining `this.metadata?.lastName`. -/
def User.metaLastName (u : User) : Option String :=
  u.metadata.bind UserMetadata.lastName

/-- User.getDisplayName (user.entity.ts): the two truthiness-guarded metadata
    branches, then the fallback `this.email.split("@")[0]`. -/
def User.getDisplayName (u : User) : String :=
  if jsTruthyStr u.metaFirstName && jsTruthyStr u.metaLastName then
    u.metaFirstName.getD "" ++ " " ++ u.metaLastName.getD ""
  else if jsTruthyStr u.metaFirstName then
    u.metaFirstName.getD ""
  else
    jsSplitHead '@' u.email

/-- The record supertokens.getUser resolves with: id, list of emails, time
    joined and login methods (kept opaque). -/
structure UserRecord where
  id : String
  emails : List String
  timeJoined : Nat
  loginMethods : String
deriving DecidableEq

/-- Outcome of the `supertokens.getUser(userId)` call inside
    SuperTokensAuthService.getUserById: a record, no record (undefined), or a
    thrown exception. -/
inductive GetUserOutcome where
  | found (r : UserRecord)
  | notFound
  | throws (message : String)
deriving DecidableEq

/-- The User built by SuperTokensAuthService.getUserById from a provider
    record: primary email is `userInfo.emails[0] || ""` and the metadata
    carries only the loginMethods field. -/
def hydrateUser (r : UserRecord) : User :=
  { id := r.id, email := r.emails.headD "", timeJoined := r.timeJoined,
    metadata := some { firstName := none, lastName := none,
                       emailVerified := none, loginMethods := some r.loginMethods } }

/-- The body of the try block of SuperTokensAuthService.getUserById. -/
def getUserByIdTry : GetUserOutcome → Except String (Option User)
  | .found r => .ok (some (hydrateUser r))
  | .notFound => .ok none
  | .throws m => .error m

/-- SuperTokensAuthService.getUserById (auth.adapter.ts): the catch block
    logs and returns null, so the operation is total. -/
def getUserById (o : GetUserOutcome) : Option User :=
  match getUserByIdTry o with
  | .ok u => u
  | .error _ => none

/-- A SuperTokens session as the middleware uses it: only getUserId is read. -/
structure Session where
  userId : String
deriving DecidableEq

/-- The AuthenticatedContext variables the middleware writes with c.set:
    session, userId and user (all absent before the middleware runs). -/
structure AuthCtxVars where
  session : Option Session
  userId : Option String
  user : Option User
deriving DecidableEq

/-- The context before any c.set call. -/
def emptyCtx : AuthCtxVars := { session := none, userId := none, user := none }

/-- getCookieValue from the request accessor object in auth.middleware.ts:
    a total function of the raw cookie header,
    `cookies.split(";").find(c trimmed starts with key=)` then
    `cookie.split("=")[1]`. -/
def getCookieValue (cookieHeader : Option String) (key : String) : Option String :=
  match cookieHeader with
  | none => none
  | some cookies =>
      match (cookies.splitOn ";").find? (fun c => c.trim.startsWith (key ++ "=")) with
      | none => none
      | some cookie => (cookie.splitOn "=").get? 1

/-- A value caught by the catch block of authMiddleware, split by the checks
    it performs: a provider error with type UNAUTHORISED, one with type
    TRY_REFRESH_TOKEN, an ApplicationError instance (whose type property is
    undefined), or any other error (no type and no statusCode property, e.g.
    a generic Error; only its message is read). -/
inductive CaughtAuthError where
  | unauthorised
  | tryRefreshToken
  | app (e : ApplicationError)
  | other (message : String)
deriving DecidableEq

/-- The suffix tested by `error.name.endsWith("Error")`. -/
def errSuffix : String := "Error"

/-- JS String.prototype.endsWith, modelled as a suffix test on the character
    lists of the two strings. -/
def jsEndsWith (s suffix : String) : Bool :=
  List.isSuffixOf suffix.data s.data

/-- The catch block of authMiddleware: map UNAUTHORISED to InvalidSessionError
    and TRY_REFRESH_TOKEN to SessionRefreshRequiredError, rethrow a caught
    error whose name ends in Error and whose statusCode is truthy, and wrap
    anything else in SuperTokensError with the original message as context. -/
def handleAuthCatch : CaughtAuthError → ApplicationError
  | .unauthorised => InvalidSessionError (some "Not authenticated. Please log in.") none
  | .tryRefreshToken =>
      SessionRefreshRequiredError (some "Session expired. Please refresh your token.") none
  | .app e =>
      if jsEndsWith e.name errSuffix && e.statusCode != 0 then e
      else SuperTokensError (some "Authentication service error")
        (some [("originalError", e.message)])
  | .other m =>
      SuperTokensError (some "Authentication service error") (some [("originalError", m)])

/-- Outcome of `getSession(request, response, sessionRequired: true)`:
    a session, or a thrown error of type UNAUTHORISED (no or invalid session),
    of type TRY_REFRESH_TOKEN (expired access token), or any other provider
    failure. -/
inductive GetSessionResult where
  | ok (s : Session)
  | unauthorised
  | tryRefreshToken
  | failure (message : String)
deriving DecidableEq

/-- The try block of authMiddleware: getSession, then getUserById on the
    session's user id, throwing UserNotFoundError when the lookup yields no
    user, else setting the three context variables. (The downstream next()
    call, also inside the try, is outside the resolution modelled here.) -/
def authMiddlewareTry (r : GetSessionResult) (g : GetUserOutcome) :
    Except CaughtAuthError AuthCtxVars :=
  match r with
  | .unauthorised => .error .unauthorised
  | .tryRefreshToken => .error .tryRefreshToken
  | .failure m => .error (.other m)
  | .ok s =>
      match getUserById g with
      | none => .error (.app (UserNotFoundError (some s.userId)
          (some "Authenticated user not found") none))
      | some u => .ok { session := some s, userId := some s.userId, user := some u }

/-- authMiddleware (auth.middleware.ts): the try body with errors mapped by
    the catch block; the result is either the populated context or a raised
    ApplicationError for the boundary translator. -/
def authMiddleware (r : GetSessionResult) (g : GetUserOutcome) :
    Except ApplicationError AuthCtxVars :=
  match authMiddlewareTry r g with
  | .ok ctx => .ok ctx
  | .error c => .error (handleAuthCatch c)

/-- Outcome of `getSession(request, response, sessionRequired: false)`:
    a session, no session (undefined, no throw), or a thrown error. -/
inductive OptGetSessionResult where
  | ok (s : Session)
  | noSession
  | thrown (e : CaughtAuthError)
deriving DecidableEq

/-- The try block of optionalAuthMiddleware: getSession without requiring a
    session; the three c.set calls run only when a session was found AND the
    user lookup returned a user. -/
def optionalAuthTry (r : OptGetSessionResult) (g : GetUserOutcome) :
    Except CaughtAuthError AuthCtxVars :=
  match r with
  | .thrown e => .error e
  | .noSession => .ok emptyCtx
  | .ok s =>
      match getUserById g with
      | some u => .ok { session := some s, userId := some s.userId, user := some u }
      | none => .ok emptyCtx

/-- optionalAuthMiddleware (auth.middleware.ts): the catch block swallows
    every failure (console.debug only), leaving the context untouched; the
    subsequent next() call is outside the try and always runs. -/
def optionalAuthMiddleware (r : OptGetSessionResult) (g : GetUserOutcome) :
    Except ApplicationError AuthCtxVars :=
  match optionalAuthTry r g with
  | .ok ctx => .ok ctx
  | .error _ => .ok emptyCtx

/- Helper lemmas about the JS split model. -/

theorem splitChar_cons (sep c : Char) (cs : List Char) :
    splitChar sep (c :: cs) =
      (if c = sep then [] :: splitChar sep cs
       else match splitChar sep cs with
            | [] => [[c]]
            | a :: rest => (c :: a) :: rest) := rfl

theorem splitChar_ne_nil (sep : Char) (cs : List Char) : splitChar sep cs ≠ [] := by
  induction cs with
  | nil => simp [splitChar]
  | cons c cs ih =>
      rw [splitChar_cons]
      split
      · exact List.cons_ne_nil _ _
      · split
        · exact List.cons_ne_nil _ _
        · exact List.cons_ne_nil _ _

theorem splitChar_headD (sep : Char) (cs : List Char) :
    (splitChar sep cs).headD [] = cs.takeWhile (fun c => !(c == sep)) := by
  induction cs with
  | nil => rfl
  | cons c cs ih =>
      rw [splitChar_cons]
      by_cases h : c = sep
      · simp [h, List.takeWhile_cons]
      · cases hs : splitChar sep cs with
        | nil => exact absurd hs (splitChar_ne_nil sep cs)
        | cons a rest =>
            rw [hs] at ih
            simp only [List.headD_cons] at ih
            simp [h, List.takeWhile_cons, ih]

theorem takeWhile_all_append {p : Char → Bool} {l₁ l₂ : List Char}
    (h : ∀ a ∈ l₁, p a = true) :
    (l₁ ++ l₂).takeWhile p = l₁ ++ l₂.takeWhile p := by
  induction l₁ with
  | nil => rfl
  | cons a l ih =>
      have ha : p a = true := h a (List.mem_cons_self a l)
      simp [List.takeWhile_cons, ha, ih (fun x hx => h x (List.mem_cons_of_mem a hx))]

theorem jsSplitHead_before_at (a b : String) (h : ∀ c ∈ a.data, c ≠ '@') :
    jsSplitHead '@' (a ++ "@" ++ b) = a := by
  have hdata : (a ++ "@" ++ b).data = a.data ++ ('@' :: b.data) := by
    simp [String.data_append]
  have hp : ∀ x ∈ a.data, (!(x == '@')) = true := by
    intro x hx
    simpa using h x hx
  rw [jsSplitHead, splitChar_headD, hdata, takeWhile_all_append hp]
  simp [List.takeWhile_cons]

/- Claim theorems. -/

/-- Claim C1: for every concrete error kind of the taxonomy table and every
    message and context supplied at throw time, translating a raised instance
    of that kind yields the kind's fixed HTTP status and its stable code
    string in the body, in every configuration. -/
theorem claim_C1_table_status_and_code (k : TableKind) (extra message : Option String)
    (context : Option ErrorContext) (production : Bool) (method url : String) :
    ∃ lg resp,
      errorLoggingMiddleware (Thrown.app (raiseTableKind k extra message context))
        production method url = .ok (lg, resp)
      ∧ resp.status = tableStatus k
      ∧ resp.body.code = tableCode k := by
  cases k <;> exact ⟨_, _, rfl, rfl, rfl⟩

/-- Claim C2: required-authentication resolution maps the provider's
    UNAUTHORISED signal to InvalidSession (401), its TRY_REFRESH_TOKEN signal
    to SessionRefreshRequired (401), and a resolved session whose user lookup
    yields no user to UserNotFound (404); each message is a fixed phrase
    independent of the request's data. -/
theorem claim_C2_required_auth_errors (g : GetUserOutcome) (s : Session) :
    (∃ e, authMiddleware .unauthorised g = .error e
       ∧ e.code = "INVALID_SESSION" ∧ e.statusCode = 401
       ∧ e.message = "Not authenticated. Please log in.")
  ∧ (∃ e, authMiddleware .tryRefreshToken g = .error e
       ∧ e.code = "SESSION_REFRESH_REQUIRED" ∧ e.statusCode = 401
       ∧ e.message = "Session expired. Please refresh your token.")
  ∧ (∃ e, authMiddleware (.ok s) .notFound = .error e
       ∧ e.code = "USER_NOT_FOUND" ∧ e.statusCode = 404
       ∧ e.message = "Authenticated user not found") := by
  refine ⟨⟨_, rfl, rfl, rfl, rfl⟩, ⟨_, rfl, rfl, rfl, rfl⟩,
    ⟨UserNotFoundError (some s.userId) (some "Authenticated user not found") none,
      ?_, rfl, rfl, rfl⟩⟩
  rfl

/-- Claim C3: in production configuration the translated body of every
    ApplicationError has no context field, and two error instances differing
    only in their context produce identical response bodies. -/
theorem claim_C3_production_redacts_context (e : ApplicationError)
    (c1 c2 : Option ErrorContext) (method url : String) :
    (∃ lg resp, errorLoggingMiddleware (Thrown.app e) true method url = .ok (lg, resp)
        ∧ resp.body.context = none)
  ∧ applicationErrorResponse { e with context := c1 } true =
      applicationErrorResponse { e with context := c2 } true := by
  constructor
  · exact ⟨_, _, rfl, by simp [applicationErrorResponse]⟩
  · simp [applicationErrorResponse]

/-- Claim C4 counterexample: the boundary translator does raise on one input
    value, the null value (a legal JS throw operand): the property access
    error.name in the logging object literal fails before any response is
    built, and no fallback catches it. -/
theorem claim_C4_null_input_raises :
    errorLoggingMiddleware Thrown.jsNull false "GET" "/" =
      Except.error "TypeError: cannot read properties of null" := rfl

/-- Claim C4 (amended): the translator does not raise on any ApplicationError
    instance, any Error instance, or a plain-string value, and for a plain
    string still yields a 500 envelope with code INTERNAL_SERVER_ERROR (whose
    message field is the generic phrase in production and absent otherwise);
    feeding it null raises a TypeError, and a formatting failure propagates:
    there is no hardcoded minimal fallback body in the code. -/
theorem claim_C4_translator_totality_amended (e : ApplicationError) (n m st s : String)
    (production : Bool) (method url : String) :
    (∃ v, errorLoggingMiddleware (Thrown.app e) production method url = .ok v)
  ∧ (∃ v, errorLoggingMiddleware (Thrown.err n m st) production method url = .ok v)
  ∧ (∃ lg resp, errorLoggingMiddleware (Thrown.str s) production method url = .ok (lg, resp)
      ∧ resp.status = 500 ∧ resp.body.code = "INTERNAL_SERVER_ERROR"
      ∧ resp.body.message = (if production then some "Internal server error" else none)) := by
  refine ⟨⟨_, rfl⟩, ⟨_, rfl⟩, ⟨_, _, rfl, rfl, rfl, rfl⟩⟩

/-- Claim C5: every non-ApplicationError Error is translated to status 500
    with code INTERNAL_SERVER_ERROR and no context; the message is the generic
    phrase in production and the original exception's message otherwise; the
    log record is always at error severity. -/
theorem claim_C5_unhandled_error_translation (n m st : String) (production : Bool)
    (method url : String) :
    ∃ lg resp, errorLoggingMiddleware (Thrown.err n m st) production method url = .ok (lg, resp)
      ∧ resp.status = 500
      ∧ resp.body.code = "INTERNAL_SERVER_ERROR"
      ∧ resp.body.message = some (if production then "Internal server error" else m)
      ∧ resp.body.context = none
      ∧ lg.severity = LogSeverity.error := by
  refine ⟨_, _, rfl, rfl, rfl, ?_, rfl, rfl⟩
  cases production <;> rfl

/-- Claim C6: optional-authentication resolution never raises: every failure
    (thrown provider error of any kind, missing session, or failed user
    lookup) is swallowed, the context stays empty, and control reaches the
    next handler. -/
theorem claim_C6_optional_auth_never_raises (r : OptGetSessionResult) (g : GetUserOutcome)
    (s : Session) (e : CaughtAuthError) (m : String) :
    (∃ ctx, optionalAuthMiddleware r g = .ok ctx)
  ∧ optionalAuthMiddleware (.thrown e) g = .ok emptyCtx
  ∧ optionalAuthMiddleware .noSession g = .ok emptyCtx
  ∧ optionalAuthMiddleware (.ok s) (.throws m) = .ok emptyCtx
  ∧ optionalAuthMiddleware (.ok s) .notFound = .ok emptyCtx := by
  refine ⟨?_, rfl, rfl, rfl, rfl⟩
  unfold optionalAuthMiddleware
  cases h : optionalAuthTry r g with
  | ok ctx => exact ⟨ctx, by simp [h]⟩
  | error c => exact ⟨emptyCtx, by simp [h]⟩

/-- Claim C7: the translator logs an ApplicationError at warn severity exactly
    when isOperational is true and at error severity otherwise, and the
    operational flag has no effect on the response. -/
theorem claim_C7_operational_flag (e : ApplicationError) (production b : Bool)
    (method url : String) :
    errorLoggingMiddleware (Thrown.app e) production method url =
      .ok (applicationErrorLog e method url, applicationErrorResponse e production)
  ∧ (applicationErrorLog e method url).severity =
      (if e.isOperational then LogSeverity.warn else LogSeverity.error)
  ∧ applicationErrorResponse { e with isOperational := b } production =
      applicationErrorResponse e production :=
  ⟨rfl, rfl, rfl⟩

/-- Claim C8: getDisplayName falls back to the local part of the email (the
    substring before the at sign) whenever the display-name attribute
    (firstName, possibly with lastName) is not a truthy string, and when the
    attribute is present the result is built from the attributes alone,
    independent of the email. -/
theorem claim_C8_display_name (u : User) (a b e2 : String) :
    (jsTruthyStr u.metaFirstName = false → u.getDisplayName = jsSplitHead '@' u.email)
  ∧ (jsTruthyStr u.metaFirstName = false → u.email = a ++ "@" ++ b →
      (∀ c ∈ a.data, c ≠ '@') → u.getDisplayName = a)
  ∧ (jsTruthyStr u.metaFirstName = true →
      (User.mk u.id e2 u.timeJoined u.metadata).getDisplayName = u.getDisplayName)
  ∧ (∀ f l, u.metaFirstName = some f → f ≠ "" → u.metaLastName = some l → l ≠ "" →
      u.getDisplayName = f ++ " " ++ l)
  ∧ (∀ f, u.metaFirstName = some f → f ≠ "" → jsTruthyStr u.metaLastName = false →
      u.getDisplayName = f) := by
  refine ⟨?_, ?_, ?_, ?_, ?_⟩
  · intro h
    simp [User.getDisplayName, h]
  · intro h hemail hat
    rw [show u.getDisplayName = jsSplitHead '@' u.email by simp [User.getDisplayName, h],
      hemail]
    exact jsSplitHead_before_at a b hat
  · intro h
    have hfn : (User.mk u.id e2 u.timeJoined u.metadata).metaFirstName = u.metaFirstName := rfl
    have hln : (User.mk u.id e2 u.timeJoined u.metadata).metaLastName = u.metaLastName := rfl
    simp [User.getDisplayName, hfn, hln, h]
  · intro f l hf hfne hl hlne
    unfold User.getDisplayName
    rw [hf, hl]
    simp [jsTruthyStr, hfne, hlne]
  · intro f hf hfne hl
    unfold User.getDisplayName
    rw [hf, hl]
    simp [jsTruthyStr, hfne]

/-- Witness for claim C8 at a concrete user: no metadata, so the display name
    is the email's local part. -/
theorem claim_C8_display_name_witness :
    (User.mk "id1" "user@example.com" 0 none).getDisplayName = "user" :=
  (claim_C8_display_name (User.mk "id1" "user@example.com" 0 none)
      "user" "example.com" "x").2.1 rfl rfl (by decide)

/-- Claim C9: SuperTokensAuthService.getUserById is total: it hydrates the
    user when the provider returns a record and returns null both when the
    provider returns no record and when the provider call throws; hence in
    the required path a provider failure during hydration surfaces as
    UserNotFound (404), not as the 503 external-service error. -/
theorem claim_C9_getUserById_never_raises (r : UserRecord) (m : String) (s : Session) :
    getUserById (.found r) = some (hydrateUser r)
  ∧ getUserById .notFound = none
  ∧ getUserById (.throws m) = none
  ∧ (∃ e, authMiddleware (.ok s) (.throws m) = .error e
       ∧ e.code = "USER_NOT_FOUND" ∧ e.statusCode = 404
       ∧ e.code ≠ "EXTERNAL_SERVICE_ERROR" ∧ e.statusCode ≠ 503) := by
  refine ⟨rfl, rfl, rfl,
    ⟨UserNotFoundError (some s.userId) (some "Authenticated user not found") none,
      ?_, rfl, rfl, by simp [UserNotFoundError], by simp [UserNotFoundError]⟩⟩
  rfl

/-- Claim C10: the optional-auth resolver writes the three context keys
    atomically: every reachable context has all of session, userId and user
    populated, or none of them. -/
theorem claim_C10_atomic_context (r : OptGetSessionResult) (g : GetUserOutcome)
    (ctx : AuthCtxVars) (h : optionalAuthMiddleware r g = .ok ctx) :
    (ctx.session.isSome = true ∧ ctx.userId.isSome = true ∧ ctx.user.isSome = true)
  ∨ (ctx.session = none ∧ ctx.userId = none ∧ ctx.user = none) := by
  cases r with
  | thrown e =>
      simp [optionalAuthMiddleware, optionalAuthTry] at h
      right
      simp [← h, emptyCtx]
  | noSession =>
      simp [optionalAuthMiddleware, optionalAuthTry] at h
      right
      simp [← h, emptyCtx]
  | ok s =>
      cases hg : getUserById g with
      | some u =>
          simp [optionalAuthMiddleware, optionalAuthTry, hg] at h
          left
          simp [← h]
      | none =>
          simp [optionalAuthMiddleware, optionalAuthTry, hg] at h
          right
          simp [← h, emptyCtx]

/-- Witness for claim C10 at a concrete input: a resolved session whose user
    lookup returns no record leaves every context key unset. -/
theorem claim_C10_atomic_context_witness :
    ((emptyCtx.session.isSome = true ∧ emptyCtx.userId.isSome = true
        ∧ emptyCtx.user.isSome = true)
  ∨ (emptyCtx.session = none ∧ emptyCtx.userId = none ∧ emptyCtx.user = none)) :=
  claim_C10_atomic_context (.ok { userId := "u1" }) .notFound emptyCtx rfl

end Prono
